import Mathlib

/-!
Shallow embedding of the argument-graph validators of this repository:

* `src/verify_argdown.py` (namespace `Verify`): parses an Argdown JSON
  export and checks credence consistency, math expressions, graph
  structure, and performs crux analysis.
* `src/alternatives/jsonschema/verify.py` (namespace `Js`): validates a
  premise/conclusion argument document against referential, math, graph
  and source checks (schema validation is an external pre-check).

Python floats are modelled as rationals (`ℚ`), Python dicts as ordered
association lists (insertion order is significant in both), and the
diagnostic strings the checkers append are modelled as a structured
`Diag` type whose constructors carry exactly the data interpolated into
the corresponding f-string.  The SymPy expression evaluator and the
network prober are external libraries; they enter the model as oracle
parameters classifying each expression / URL, while the branching on
their outcome is translated from the repository's code.
-/

/-- Absolute value on `ℚ`, mirroring Python's `abs`. -/
def ratAbs (x : ℚ) : ℚ := if x < 0 then -x else x

/-- Outcome of `sympy.sympify` (plus `evalf`) on one expression string, as
classified by the `check_math` functions: `sympy.true`, `sympy.false`, a
numeric value, or any raised exception with its message.  SymPy is an
external library, so this classification is an oracle parameter of the
checkers; the branching on it is translated from the source. -/
inductive SymResult where
  | strue : SymResult
  | sfalse : SymResult
  | value : ℚ → SymResult
  | error : String → SymResult
deriving DecidableEq, Repr

/-- One diagnostic line.  Each constructor corresponds to one f-string in
the source and carries exactly the data interpolated into it. -/
inductive Diag where
  /-- `ENTAILMENT: [a] (credence=ca) entails [b] (credence=cb), but cb < ca. ...` -/
  | entailment (aTitle bTitle : String) (ca cb : ℚ)
  /-- `CONTRARY: [a] (credence=ca) contrary to [b] (credence=cb), sum=... > 1.0. ...` -/
  | contrary (aTitle bTitle : String) (ca cb : ℚ)
  /-- `CONTRADICTION: [a] (credence=ca) contradicts [b] (credence=cb), sum=... != 1.0 ...` -/
  | contradiction (aTitle bTitle : String) (ca cb : ℚ)
  /-- `MATH FAIL: owner: 'expr' is False` (owner is the statement title, or
  `arg/premise` in the jsonschema variant). -/
  | mathFail (owner expr : String)
  /-- `MATH EVAL: owner: 'expr' = val (not a boolean comparison)` -/
  | mathEval (owner expr : String) (val : ℚ)
  /-- `MATH ERROR: owner: 'expr' raised reason` -/
  | mathError (owner expr reason : String)
  /-- `ENTAILMENT CYCLE: n1 -> n2 -> ... (circular reasoning)` -/
  | entailmentCycle (cycle : List String)
  /-- `ISOLATED: [title] is a top-level statement with no relations` -/
  | isolated (title : String)
  /-- `CRUX: [title] (credence=c) has n downstream entailment(s). ...` -/
  | crux (title : String) (credence : ℚ) (downstream : Nat)
  /-- `SCHEMA: path: message` produced by the external schema pre-check. -/
  | schema (msg : String)
  /-- `REF: arg: inference references 'ref' but premises are {...}` -/
  | ref (argName refId : String) (premiseIds : List String)
  /-- `GRAPH: arg: conclusion 'cid' has no relations (supports/attacks nothing)` -/
  | graphOrphan (argName cid : String)
  /-- `GRAPH: relation rtype targets 'v' which doesn't exist` -/
  | graphDangling (relType target : String)
  /-- `GRAPH CYCLE: n1 -> n2 -> ...` -/
  | graphCycle (cycle : List String)
  /-- `GRAPH: claim 'cid' has no supporting arguments` -/
  | graphUnsupported (cid : String)
  /-- `SOURCE: arg/premise: observation without source` -/
  | sourceMissing (argName pid : String)
  /-- `SOURCE URL: arg/premise: url returned status` -/
  | sourceUrlStatus (argName pid url : String) (status : Nat)
  /-- `SOURCE URL: arg/premise: url error: msg` -/
  | sourceUrlError (argName pid url msg : String)
deriving DecidableEq, Repr

/-- Whether a diagnostic belongs to the credence-consistency category
(`ENTAILMENT`, `CONTRARY`, `CONTRADICTION`). -/
def Diag.isConsistency : Diag → Bool
  | .entailment .. => true
  | .contrary .. => true
  | .contradiction .. => true
  | _ => false

/-- Whether a diagnostic belongs to the math category (`MATH FAIL`,
`MATH EVAL`, `MATH ERROR`). -/
def Diag.isMath : Diag → Bool
  | .mathFail .. => true
  | .mathEval .. => true
  | .mathError .. => true
  | _ => false

/-- Whether a diagnostic belongs to the graph category of
`verify_argdown.py` (`ENTAILMENT CYCLE`, `ISOLATED`). -/
def Diag.isGraphA : Diag → Bool
  | .entailmentCycle _ => true
  | .isolated _ => true
  | _ => false

/-- Whether a diagnostic is a crux note (`CRUX`). -/
def Diag.isCrux : Diag → Bool
  | .crux .. => true
  | _ => false

/-!
### Directed graphs, `networkx` style

Both verifiers build `networkx.DiGraph` objects.  The facts of that
library the code relies on: `add_node` is idempotent; `add_edge u v`
inserts *both endpoints* as nodes when absent and keeps at most one edge
per ordered pair, the latest call overwriting the attribute in place;
iteration follows insertion order; `simple_cycles` enumerates every
simple directed cycle exactly once (rotation immaterial);
`descendants g n` is the set of nodes reachable from `n` excluding `n`
itself; `degree` counts incident edges (in plus out).
-/

/-- A directed graph with one string attribute per edge: node list and
edge list `(u, v, attr)` in insertion order, at most one edge per
ordered pair `(u, v)`. -/
structure NxGraph where
  nodes : List String
  edges : List (String × String × String)
deriving DecidableEq, Repr

/-- `networkx.DiGraph.add_node`: append if absent. -/
def addNode (G : NxGraph) (n : String) : NxGraph :=
  if n ∈ G.nodes then G else ⟨G.nodes ++ [n], G.edges⟩

/-- Insert edge `(u, v, t)` in an edge list: overwrite the attribute in
place when the pair `(u, v)` is present, else append. -/
def setEdge : List (String × String × String) → String → String → String →
    List (String × String × String)
  | [], u, v, t => [(u, v, t)]
  | (u', v', t') :: rest, u, v, t =>
    if u' = u ∧ v' = v then (u, v, t) :: rest
    else (u', v', t') :: setEdge rest u v t

/-- `networkx.DiGraph.add_edge u v`, with attribute `t`: both endpoints
become nodes, the edge attribute is overwritten if the pair exists. -/
def addEdge (G : NxGraph) (u v t : String) : NxGraph :=
  let G' := addNode (addNode G u) v
  ⟨G'.nodes, setEdge G'.edges u v t⟩

/-- Successors of `u` in a plain edge-pair list, in edge order. -/
def succs (edges : List (String × String)) (u : String) : List String :=
  edges.filterMap (fun e => if e.1 = u then some e.2 else none)

/-- Depth-first enumeration of the simple cycles through start node `s`:
`path` is the reversed list of visited nodes (starting with `s`), a
successor equal to `s` closes a cycle, nodes already on the path or in
`forbidden` are not entered.  The first argument is structural fuel;
any list at least as long as the longest simple path works. -/
def cycleDfs (edges : List (String × String)) (forbidden : List String)
    (s : String) : List (String × String) → String → List String → List (List String)
  | [], _, _ => []
  | _ :: fuel, u, path =>
    (succs edges u).flatMap fun v =>
      if v = s then [path.reverse]
      else if v ∈ path ∨ v ∈ forbidden then []
      else cycleDfs edges forbidden s fuel v (v :: path)

/-- Enumeration loop of `simple_cycles`: every simple cycle is produced
exactly once, rooted at the first of its nodes in `nodes` order; nodes
already processed are forbidden for later roots. -/
def simpleCyclesGo (nodes : List String) (edges : List (String × String)) :
    List String → List String → List (List String)
  | [], _ => []
  | s :: rest, earlier =>
    cycleDfs edges earlier s ((s, s) :: edges) s [s] ++ simpleCyclesGo nodes edges rest (s :: earlier)

/-- `networkx.simple_cycles`: all simple directed cycles of the graph
given by `nodes` and `edges`, each exactly once (self-loops as `[n]`). -/
def simple_cycles (nodes : List String) (edges : List (String × String)) :
    List (List String) :=
  simpleCyclesGo nodes edges nodes []

/-- Append the elements of `xs` not yet in `seen`, first occurrence kept. -/
def appendNew (seen : List String) (xs : List String) : List String :=
  xs.foldl (fun acc x => if x ∈ acc then acc else acc ++ [x]) seen

/-- One breadth step of reachability: add every successor of a seen node. -/
def reachStep (edges : List (String × String)) (seen : List String) : List String :=
  appendNew seen (seen.flatMap (succs edges))

/-- Iterate `reachStep` once per fuel element. -/
def reachIter (edges : List (String × String)) :
    List (String × String) → List String → List String
  | [], seen => seen
  | _ :: fuel, seen => reachIter edges fuel (reachStep edges seen)

/-- `networkx.descendants`: the nodes reachable from `s` along `edges`,
excluding `s` itself, as a duplicate-free list.  `edges.length + 1`
reachability rounds exceed any shortest-path distance, so the iteration
reaches the closure. -/
def descendants (edges : List (String × String)) (s : String) : List String :=
  (reachIter edges ((s, s) :: edges) [s]).filter (fun x => x ≠ s)

namespace Verify

/-! ### `src/verify_argdown.py` -/

/-- The tolerance on contradictory credence sums
(`CONTRADICTION_TOLERANCE = 0.05`). -/
def CONTRADICTION_TOLERANCE : ℚ := 1/20

/-- One relation record `{"from": ..., "to": ..., "relationType": ...}`. -/
structure Relation where
  fromId : String
  toId : String
  relationType : String
deriving DecidableEq, Repr

/-- One entry of the exported `statements` object: the optional
`data.credence` / `data.tag` / `data.math` fields, the texts of the
`members` list, the `relations` list and the
`isUsedAsTopLevelStatement` marker. -/
structure StatementEntry where
  credence : Option ℚ := none
  tag : Option String := none
  math : Option String := none
  members : List String := []
  relations : List Relation := []
  isUsedAsTopLevelStatement : Bool := false
deriving DecidableEq, Repr

/-- One entry of the exported `arguments` object (only its `relations`
list is read). -/
structure ArgEntry where
  relations : List Relation := []
deriving DecidableEq, Repr

/-- The parsed Argdown JSON export: `statements` and `arguments` objects
as ordered association lists (JSON object keys are unique and ordered). -/
structure ArgdownDoc where
  statements : List (String × StatementEntry) := []
  arguments : List (String × ArgEntry) := []
deriving DecidableEq, Repr

/-- The normalized statement record built by `extract_statements`. -/
structure Stmt where
  title : String
  text : String
  credence : Option ℚ
  tag : Option String
  math : Option String
deriving DecidableEq, Repr

/-- `extract_statements`: statement title to
`{title, text, credence, tag, math}`, in document order; the text is the
first member's text, `""` when there are no members. -/
def extract_statements (data : ArgdownDoc) : List (String × Stmt) :=
  data.statements.map fun p =>
    (p.1, { title := p.1, text := p.2.members.headD "",
            credence := p.2.credence, tag := p.2.tag, math := p.2.math })

/-- Deduplication pass of `extract_relations`: drop a relation whose
`(from, to, relationType)` key was already seen. -/
def dedupRelations : List Relation → List (String × String × String) → List Relation
  | [], _ => []
  | r :: rest, seen =>
    if (r.fromId, r.toId, r.relationType) ∈ seen then dedupRelations rest seen
    else r :: dedupRelations rest ((r.fromId, r.toId, r.relationType) :: seen)

/-- `extract_relations`: every relation of every statement entry, then of
every argument entry, deduplicated by `(from, to, relationType)` with one
shared seen-set. -/
def extract_relations (data : ArgdownDoc) : List Relation :=
  dedupRelations
    (data.statements.flatMap (fun p => p.2.relations) ++
      data.arguments.flatMap (fun p => p.2.relations)) []

/-- Association-list lookup, i.e. Python `dict.get` returning `None` when
the key is absent. -/
def lookupStmt (statements : List (String × Stmt)) (t : String) : Option Stmt :=
  match statements with
  | [] => none
  | p :: rest => if p.1 = t then some p.2 else lookupStmt rest t

/-- `statements.get(title, {}).get("credence")`: the credence of the
statement titled `t`, `none` when the title is absent or the credence is. -/
def credOf (statements : List (String × Stmt)) (t : String) : Option ℚ :=
  (lookupStmt statements t).bind (fun s => s.credence)

/-- The diagnostics one relation contributes in
`check_credence_consistency`: skip when either endpoint credence is
missing, else apply the constraint selected by `relationType`. -/
def relDiag (statements : List (String × Stmt)) (rel : Relation) : List Diag :=
  match credOf statements rel.fromId, credOf statements rel.toId with
  | some ca, some cb =>
    if rel.relationType = "entails" then
      if cb < ca then [.entailment rel.fromId rel.toId ca cb] else []
    else if rel.relationType = "contrary" then
      if ca + cb > 1 then [.contrary rel.fromId rel.toId ca cb] else []
    else if rel.relationType = "contradictory" then
      if ratAbs (ca + cb - 1) > CONTRADICTION_TOLERANCE then
        [.contradiction rel.fromId rel.toId ca cb]
      else []
    else []
  | _, _ => []

/-- `check_credence_consistency`: the per-relation diagnostics, in
relation order. -/
def check_credence_consistency (statements : List (String × Stmt))
    (relations : List Relation) : List Diag :=
  relations.flatMap (relDiag statements)

/-- The loop body of `check_math` for one statement: skip a missing or
empty `math` field (`if not expr_str`), otherwise classify the SymPy
outcome: `true` passes silently, `false` is a MATH FAIL, a numeric value
is a MATH EVAL, any raised exception is caught as a MATH ERROR. -/
def mathDiag (ev : String → SymResult) (p : String × Stmt) : List Diag :=
  match p.2.math with
  | none => []
  | some e =>
    if e = "" then []
    else
      match ev e with
      | .strue => []
      | .sfalse => [.mathFail p.1 e]
      | .value v => [.mathEval p.1 e v]
      | .error m => [.mathError p.1 e m]

/-- `check_math`: the per-statement math diagnostics, in statement
order. -/
def check_math (ev : String → SymResult) (statements : List (String × Stmt)) :
    List Diag :=
  statements.flatMap (mathDiag ev)

/-- The graph built by `check_graph`: one node per statement title, then
one edge per relation (`add_edge` also inserting missing endpoints). -/
def buildGraph (statements : List (String × Stmt)) (relations : List Relation) :
    NxGraph :=
  relations.foldl (fun G r => addEdge G r.fromId r.toId r.relationType)
    (statements.foldl (fun G p => addNode G p.1) ⟨[], []⟩)

/-- The `entails`-labelled edges of `G`, as pairs in edge order. -/
def entailmentPairs (G : NxGraph) : List (String × String) :=
  G.edges.filterMap fun e => if e.2.2 = "entails" then some (e.1, e.2.1) else none

/-- The node list of `nx.DiGraph(pairs)`: endpoints in first-encounter
order, source before target within each pair. -/
def pairNodes (pairs : List (String × String)) : List String :=
  pairs.foldl
    (fun ns e =>
      let ns' := if e.1 ∈ ns then ns else ns ++ [e.1]
      if e.2 ∈ ns' then ns' else ns' ++ [e.2]) []

/-- `G.degree t`: incident edge count, in-degree plus out-degree (a
self-loop counts twice). -/
def degree (G : NxGraph) (t : String) : Nat :=
  (G.edges.filter fun e => e.1 = t).length +
    (G.edges.filter fun e => e.2.1 = t).length

/-- `check_graph`: build the graph, report one ENTAILMENT CYCLE per
simple cycle of the `entails`-only subgraph, then one ISOLATED per
statement that is marked `isUsedAsTopLevelStatement` and has degree 0. -/
def check_graph (statements : List (String × Stmt)) (relations : List Relation)
    (data : ArgdownDoc) : List Diag :=
  let G := buildGraph statements relations
  let pairs := entailmentPairs G
  let cycleErrs := (simple_cycles (pairNodes pairs) pairs).map Diag.entailmentCycle
  let top_level := (data.statements.filter fun p => p.2.isUsedAsTopLevelStatement).map
    (fun p => p.1)
  let isolatedErrs := statements.filterMap fun p =>
    if degree G p.1 = 0 ∧ p.1 ∈ top_level then some (Diag.isolated p.1) else none
  cycleErrs ++ isolatedErrs

/-- `crux_analysis`: over the graph of `entails` relations, one CRUX note
per statement (in document order) that has a credence, is a node of that
graph, and has a positive count of reachable descendants; the note
carries the title, the credence and the count. -/
def crux_analysis (statements : List (String × Stmt)) (relations : List Relation) :
    List Diag :=
  let pairs := relations.filterMap fun r =>
    if r.relationType = "entails" then some (r.fromId, r.toId) else none
  let nodes := pairNodes pairs
  statements.filterMap fun p =>
    match p.2.credence with
    | none => none
    | some c =>
      if p.1 ∈ nodes then
        let downstream := (descendants pairs p.1).length
        if downstream > 0 then some (.crux p.1 c downstream) else none
      else none

/-- The observable outcome of `main`: the aggregated error list, the crux
notes, and the process exit status. -/
structure Run where
  errors : List Diag
  notes : List Diag
  exitCode : Nat
deriving DecidableEq, Repr

/-- `main` on an already-parsed document: extract, aggregate the three
checkers' diagnostics in the order consistency, math, graph, compute the
crux notes, and exit with `1 if all_errors else 0`. -/
def main_run (ev : String → SymResult) (data : ArgdownDoc) : Run :=
  let statements := extract_statements data
  let relations := extract_relations data
  let all_errors :=
    check_credence_consistency statements relations ++
      check_math ev statements ++
        check_graph statements relations data
  let notes := crux_analysis statements relations
  { errors := all_errors, notes := notes,
    exitCode := if all_errors = [] then 0 else 1 }

end Verify

namespace Js

/-! ### `src/alternatives/jsonschema/verify.py` -/

/-- A premise's `source` record (only its `url` is read). -/
structure Source where
  url : String
deriving DecidableEq, Repr

/-- One premise: required `id` and `tag`, optional `math` and `source`. -/
structure Premise where
  id : String
  tag : String
  math : Option String := none
  source : Option Source := none
deriving DecidableEq, Repr

/-- One inference: its `from` list of premise ids. -/
structure Inference where
  fromIds : List String
deriving DecidableEq, Repr

/-- An argument's conclusion: `id` and `text`. -/
structure Conclusion where
  id : String
  text : String
deriving DecidableEq, Repr

/-- One outgoing relation of an argument: `target` and `type`. -/
structure JsRelation where
  target : String
  rtype : String
deriving DecidableEq, Repr

/-- One argument of the YAML document. -/
structure Argument where
  name : String
  premises : List Premise := []
  inferences : List Inference := []
  conclusion : Conclusion
  relations : List JsRelation := []
deriving DecidableEq, Repr

/-- The parsed YAML document: the `claims` object (id to text, ordered)
and the `arguments` list. -/
structure ArgDoc where
  claims : List (String × String) := []
  arguments : List Argument := []
deriving DecidableEq, Repr

/-- `check_refs`: one REF diagnostic per inference reference that is not
among the ids of the argument's own premises. -/
def check_refs (data : ArgDoc) : List Diag :=
  data.arguments.flatMap fun arg =>
    let premise_ids := arg.premises.map (fun p => p.id)
    arg.inferences.flatMap fun inf =>
      inf.fromIds.filterMap fun r =>
        if r ∈ premise_ids then none else some (.ref arg.name r premise_ids)

/-- `check_math` of the jsonschema variant: same per-expression
classification as `Verify.check_math`, iterating over the premises of
each argument; the diagnostic owner is `name/id`. -/
def check_math (ev : String → SymResult) (data : ArgDoc) : List Diag :=
  data.arguments.flatMap fun arg =>
    arg.premises.flatMap fun p =>
      match p.math with
      | none => []
      | some e =>
        if e = "" then []
        else
          match ev e with
          | .strue => []
          | .sfalse => [.mathFail (arg.name ++ "/" ++ p.id) e]
          | .value v => [.mathEval (arg.name ++ "/" ++ p.id) e v]
          | .error m => [.mathError (arg.name ++ "/" ++ p.id) e m]

/-- The graph built by `check_graph`: claim nodes, then per argument its
conclusion node and one edge per outgoing relation, the relation `type`
as edge attribute (`add_edge` also inserting missing targets as nodes). -/
def buildGraph (data : ArgDoc) : NxGraph :=
  data.arguments.foldl
    (fun G arg =>
      (arg.relations.foldl
        (fun G' rel => addEdge G' arg.conclusion.id rel.target rel.rtype)
        (addNode G arg.conclusion.id)))
    (data.claims.foldl (fun G c => addNode G c.1) ⟨[], []⟩)

/-- `G.out_degree t`: number of edges leaving `t`. -/
def out_degree (G : NxGraph) (t : String) : Nat :=
  (G.edges.filter fun e => e.1 = t).length

/-- The orphaned-conclusion pass of `check_graph`: one GRAPH diagnostic
per argument whose conclusion has no outgoing edge. -/
def orphan_errors (data : ArgDoc) (G : NxGraph) : List Diag :=
  data.arguments.filterMap fun arg =>
    if out_degree G arg.conclusion.id = 0 then
      some (.graphOrphan arg.name arg.conclusion.id)
    else none

/-- The dangling-target pass of `check_graph`: one GRAPH diagnostic per
edge whose target is not a node of the graph. -/
def dangling_errors (G : NxGraph) : List Diag :=
  G.edges.filterMap fun e =>
    if e.2.1 ∈ G.nodes then none else some (.graphDangling e.2.2 e.2.1)

/-- The cycle pass of `check_graph`: one GRAPH CYCLE diagnostic per
simple cycle of the full graph. -/
def cycle_errors (G : NxGraph) : List Diag :=
  (simple_cycles G.nodes (G.edges.map fun e => (e.1, e.2.1))).map Diag.graphCycle

/-- The unsupported-claim pass of `check_graph`: one GRAPH diagnostic per
claim with no incoming edge labelled `supports`. -/
def unsupported_errors (data : ArgDoc) (G : NxGraph) : List Diag :=
  data.claims.filterMap fun c =>
    let supporters := G.edges.filterMap fun e =>
      if e.2.1 = c.1 ∧ e.2.2 = "supports" then some e.1 else none
    if supporters = [] then some (.graphUnsupported c.1) else none

/-- `check_graph`: build the graph, then the orphaned-conclusion,
dangling-target, cycle and unsupported-claim passes, in that order. -/
def check_graph (data : ArgDoc) : List Diag :=
  let G := buildGraph data
  orphan_errors data G ++ dangling_errors G ++ cycle_errors G ++
    unsupported_errors data G

/-- `check_sources`: per premise, an observation without a source is a
SOURCE diagnostic; with `verify_urls` set, each http source URL is probed
(the `requests.head` call is the external oracle `probe`): a status of
400 or more, or a raised exception, each yield one SOURCE URL
diagnostic. -/
def check_sources (probe : String → Except String Nat) (verify_urls : Bool)
    (data : ArgDoc) : List Diag :=
  data.arguments.flatMap fun arg =>
    arg.premises.flatMap fun p =>
      (if p.tag = "observation" ∧ p.source = none then
        [.sourceMissing arg.name p.id]
      else []) ++
      (if verify_urls then
        match p.source with
        | none => []
        | some src =>
          if src.url.startsWith "http" then
            match probe src.url with
            | .ok code =>
              if 400 ≤ code then [.sourceUrlStatus arg.name p.id src.url code]
              else []
            | .error e => [.sourceUrlError arg.name p.id src.url e]
          else []
      else [])

/-- The observable outcome of the jsonschema `main`: error list and exit
status. -/
structure Run where
  errors : List Diag
  exitCode : Nat
deriving DecidableEq, Repr

/-- `main` on an already-parsed document: the external schema pre-check's
diagnostics, then referential, math, graph and source diagnostics, and
exit status 1 when the list is non-empty, 0 otherwise. -/
def main_run (schemaErrors : List Diag) (ev : String → SymResult)
    (probe : String → Except String Nat) (verify_urls : Bool) (data : ArgDoc) :
    Run :=
  let all_errors :=
    schemaErrors ++ check_refs data ++ check_math ev data ++ check_graph data ++
      check_sources probe verify_urls data
  { errors := all_errors, exitCode := if all_errors = [] then 0 else 1 }

end Js

/-! ### Concrete documents and oracles used by the claims -/

/-- An expression oracle for documents without math fields (never
consulted there): everything classifies as `sympy.true`. -/
def evTrue : String → SymResult := fun _ => SymResult.strue

/-- An expression oracle under which every expression reduces to
`sympy.false`. -/
def evFalse : String → SymResult := fun _ => SymResult.sfalse

/-- An expression oracle under which every expression raises, with the
fixed message `"parse error"`. -/
def evErr : String → SymResult := fun _ => SymResult.error "parse error"

/-- A URL probe oracle answering 200 everywhere. -/
def probeOk : String → Except String Nat := fun _ => Except.ok 200

namespace Verify

/-- A statement record with the given title, credence and math field. -/
def mkStmt (title : String) (c : Option ℚ) (m : Option String) : Stmt :=
  { title := title, text := "", credence := c, tag := none, math := m }

/-- A document with a single statement marked `isUsedAsTopLevelStatement`
and carrying no relation, no math field and no credence. -/
def docTopLevelOnly : ArgdownDoc :=
  { statements := [("A", { isUsedAsTopLevelStatement := true })] }

/-- A document with one plain statement and one argument entry, with no
relation, no math field, no credence and no top-level marker anywhere. -/
def docPlain : ArgdownDoc :=
  { statements := [("A", {})], arguments := [("arg1", {})] }

/-- A document with one entailment violation (credence 1 entails
credence 0) and one math-bearing statement. -/
def docOrder : ArgdownDoc :=
  { statements :=
      [("A", { credence := some 1, relations := [⟨"A", "B", "entails"⟩] }),
       ("B", { credence := some 0 }),
       ("C", { math := some "1 < 0" })] }

/-- A three-statement document whose relations form the entailment cycle
`a -> b -> c -> a`, every edge typed `entails`. -/
def docCycleEnt (a b c : String) : ArgdownDoc :=
  { statements :=
      [(a, { relations := [⟨a, b, "entails"⟩] }),
       (b, { relations := [⟨b, c, "entails"⟩] }),
       (c, { relations := [⟨c, a, "entails"⟩] })] }

/-- The same cycle with the closing edge `c -> a` typed `supports`
instead of `entails`. -/
def docCycleMix (a b c : String) : ArgdownDoc :=
  { statements :=
      [(a, { relations := [⟨a, b, "entails"⟩] }),
       (b, { relations := [⟨b, c, "entails"⟩] }),
       (c, { relations := [⟨c, a, "supports"⟩] })] }

/-- An entailment chain `a -> b -> c` with a credence on every
statement. -/
def docChain (a b c : String) (ca cb cc : ℚ) : ArgdownDoc :=
  { statements :=
      [(a, { credence := some ca, relations := [⟨a, b, "entails"⟩] }),
       (b, { credence := some cb, relations := [⟨b, c, "entails"⟩] }),
       (c, { credence := some cc })] }

end Verify

namespace Js

/-- A document with no claims and a single argument whose conclusion has
one relation targeting the undeclared identifier `ghost`. -/
def docGhost : ArgDoc :=
  { claims := [],
    arguments := [{ name := "a1", conclusion := ⟨"c1", "t"⟩,
                    relations := [⟨"ghost", "supports"⟩] }] }

end Js

/-- Every edge's target is a node of the graph.  `networkx.add_edge`
inserts missing endpoints, so every graph either verifier builds
satisfies this invariant — which is what makes the dangling-target check
of the jsonschema variant dead code. -/
def edgesCovered (G : NxGraph) : Prop := ∀ e ∈ G.edges, e.2.1 ∈ G.nodes

/-! ## Theorems -/

/-- A `foldl` preserves any invariant its step function preserves. -/
theorem foldlInv {α σ : Type _} (P : σ → Prop) (f : σ → α → σ)
    (hf : ∀ s a, P s → P (f s a)) :
    ∀ (l : List α) (s : σ), P s → P (l.foldl f s) := by
  intro l
  induction l with
  | nil => intro s hs; exact hs
  | cons x xs ih => intro s hs; exact ih (f s x) (hf s x hs)

theorem addNode_edges (G : NxGraph) (n : String) : (addNode G n).edges = G.edges := by
  unfold addNode; split <;> rfl

theorem addNode_mem_nodes (G : NxGraph) (n x : String) (h : x ∈ G.nodes) :
    x ∈ (addNode G n).nodes := by
  unfold addNode; split
  · exact h
  · exact List.mem_append_left _ h

theorem mem_addNode_self (G : NxGraph) (n : String) : n ∈ (addNode G n).nodes := by
  unfold addNode; split
  · assumption
  · exact List.mem_append_right _ (List.mem_singleton.mpr rfl)

theorem setEdge_mem (u v t : String) :
    ∀ (es : List (String × String × String)) (e : String × String × String),
      e ∈ setEdge es u v t → e ∈ es ∨ e = (u, v, t) := by
  intro es
  induction es with
  | nil => intro e he; simp [setEdge] at he; exact Or.inr he
  | cons hd tl ih =>
    intro e he
    unfold setEdge at he
    split at he
    · rcases List.mem_cons.mp he with h | h
      · exact Or.inr h
      · exact Or.inl (List.mem_cons_of_mem _ h)
    · rcases List.mem_cons.mp he with h | h
      · exact Or.inl (h ▸ List.mem_cons_self _ _)
      · rcases ih e h with h' | h'
        · exact Or.inl (List.mem_cons_of_mem _ h')
        · exact Or.inr h'

theorem addEdge_covered (G : NxGraph) (u v t : String) (h : edgesCovered G) :
    edgesCovered (addEdge G u v t) := by
  intro e he
  unfold addEdge at he ⊢
  rcases setEdge_mem u v t _ e he with h' | h'
  · have := h e (by simpa [addNode_edges] using h')
    exact addNode_mem_nodes _ _ _ (addNode_mem_nodes _ _ _ this)
  · subst h'
    exact mem_addNode_self _ _

theorem addNode_covered (G : NxGraph) (n : String) (h : edgesCovered G) :
    edgesCovered (addNode G n) := by
  intro e he
  rw [addNode_edges] at he
  exact addNode_mem_nodes _ _ _ (h e he)

theorem buildGraphJs_covered (data : Js.ArgDoc) : edgesCovered (Js.buildGraph data) := by
  unfold Js.buildGraph
  have hbase : edgesCovered (data.claims.foldl (fun G c => addNode G c.1) ⟨[], []⟩) := by
    apply foldlInv edgesCovered _ (fun G c hG => addNode_covered _ _ hG) data.claims
    intro e he; simp at he
  apply foldlInv edgesCovered _ _ data.arguments _ hbase
  intro G arg hG
  exact foldlInv edgesCovered _ (fun G' rel hG' => addEdge_covered _ _ _ _ hG')
    arg.relations _ (addNode_covered _ _ hG)

theorem dangling_errors_covered_nil (G : NxGraph) (h : edgesCovered G) :
    Js.dangling_errors G = [] := by
  unfold Js.dangling_errors
  rw [List.filterMap_eq_nil_iff]
  intro e he
  simp [h e he]

theorem relDiag_isConsistency (statements : List (String × Verify.Stmt))
    (rel : Verify.Relation) (d : Diag) (h : d ∈ Verify.relDiag statements rel) :
    d.isConsistency = true := by
  unfold Verify.relDiag at h
  split at h
  · split_ifs at h <;> simp_all [Diag.isConsistency]
  · simp at h

theorem mem_check_credence_isConsistency (statements : List (String × Verify.Stmt))
    (relations : List Verify.Relation) (d : Diag)
    (h : d ∈ Verify.check_credence_consistency statements relations) :
    d.isConsistency = true := by
  unfold Verify.check_credence_consistency at h
  rw [List.mem_flatMap] at h
  obtain ⟨r, _, hd⟩ := h
  exact relDiag_isConsistency _ _ _ hd

theorem mathDiag_isMath (ev : String → SymResult) (p : String × Verify.Stmt)
    (d : Diag) (h : d ∈ Verify.mathDiag ev p) : d.isMath = true := by
  unfold Verify.mathDiag at h
  split at h
  · simp at h
  · split_ifs at h
    · simp at h
    · split at h <;> simp_all [Diag.isMath]

theorem mem_check_math_isMath (ev : String → SymResult)
    (statements : List (String × Verify.Stmt)) (d : Diag)
    (h : d ∈ Verify.check_math ev statements) : d.isMath = true := by
  unfold Verify.check_math at h
  rw [List.mem_flatMap] at h
  obtain ⟨p, _, hd⟩ := h
  exact mathDiag_isMath _ _ _ hd

theorem mem_check_graph_isGraphA (statements : List (String × Verify.Stmt))
    (relations : List Verify.Relation) (data : Verify.ArgdownDoc) (d : Diag)
    (h : d ∈ Verify.check_graph statements relations data) : d.isGraphA = true := by
  unfold Verify.check_graph at h
  rcases List.mem_append.mp h with h' | h'
  · obtain ⟨cyc, _, hd⟩ := List.mem_map.mp h'
    simp [← hd, Diag.isGraphA]
  · obtain ⟨p, _, hd⟩ := List.mem_filterMap.mp h'
    split_ifs at hd
    injection hd with hd
    rw [← hd]
    rfl

theorem mem_main_errors_not_crux (ev : String → SymResult)
    (data : Verify.ArgdownDoc) (d : Diag)
    (h : d ∈ (Verify.main_run ev data).errors) : d.isCrux = false := by
  unfold Verify.main_run at h
  simp only at h
  rcases List.mem_append.mp h with h' | h'
  · rcases List.mem_append.mp h' with h'' | h''
    · have := mem_check_credence_isConsistency _ _ _ h''
      cases d <;> simp_all [Diag.isConsistency, Diag.isCrux]
    · have := mem_check_math_isMath _ _ _ h''
      cases d <;> simp_all [Diag.isMath, Diag.isCrux]
  · have := mem_check_graph_isGraphA _ _ _ _ h'
    cases d <;> simp_all [Diag.isGraphA, Diag.isCrux]

theorem extract_relations_of_no_relations (data : Verify.ArgdownDoc)
    (hs : ∀ p ∈ data.statements, p.2.relations = [])
    (ha : ∀ p ∈ data.arguments, p.2.relations = []) :
    Verify.extract_relations data = [] := by
  unfold Verify.extract_relations
  rw [List.flatMap_eq_nil_iff.mpr hs, List.flatMap_eq_nil_iff.mpr ha]
  rfl

theorem check_math_of_no_math (ev : String → SymResult) (data : Verify.ArgdownDoc)
    (hm : ∀ p ∈ data.statements, p.2.math = none) :
    Verify.check_math ev (Verify.extract_statements data) = [] := by
  unfold Verify.check_math
  rw [List.flatMap_eq_nil_iff]
  intro p hp
  obtain ⟨q, hq, hpq⟩ := List.mem_map.mp hp
  rw [← hpq]
  unfold Verify.mathDiag
  simp [hm q hq]

theorem buildGraph_edges_of_no_relations (statements : List (String × Verify.Stmt)) :
    (Verify.buildGraph statements []).edges = [] := by
  unfold Verify.buildGraph
  rw [List.foldl_nil]
  exact foldlInv (fun (G : NxGraph) => G.edges = []) (fun G p => addNode G p.1)
    (fun G p hp => by simp only []; rw [addNode_edges]; exact hp) statements ⟨[], []⟩ rfl

theorem check_graph_of_no_relations (statements : List (String × Verify.Stmt))
    (data : Verify.ArgdownDoc)
    (htop : ∀ p ∈ data.statements, p.2.isUsedAsTopLevelStatement = false) :
    Verify.check_graph statements [] data = [] := by
  have hE : (Verify.buildGraph statements []).edges = [] :=
    buildGraph_edges_of_no_relations statements
  have htl : (data.statements.filter fun p => p.2.isUsedAsTopLevelStatement).map
      (fun p => p.1) = [] := by
    rw [List.filter_eq_nil_iff.mpr, List.map_nil]
    intro p hp
    simp [htop p hp]
  unfold Verify.check_graph
  rw [List.append_eq_nil]
  constructor
  · unfold Verify.entailmentPairs
    rw [hE]
    rfl
  · rw [List.filterMap_eq_nil_iff]
    intro p hp
    rw [htl]
    simp

/-- C1, counterexample: a document with no relations, no math fields and
no credences, whose single statement is marked as a top-level statement,
does not pass — `check_graph` flags it ISOLATED and the exit status
is 1. -/
theorem c1_counterexample :
    (Verify.main_run evTrue Verify.docTopLevelOnly).errors = [Diag.isolated "A"] ∧
      (Verify.main_run evTrue Verify.docTopLevelOnly).exitCode = 1 := by
  decide

/-- C1 (amended): a document with no relations, no math expression fields
and no credence fields passes — diagnostic list empty, exit status 0 —
provided additionally no statement is marked `isUsedAsTopLevelStatement`
(for `verify_argdown.py`); the jsonschema verifier passes such a document
provided additionally it has no arguments and no claims and the external
schema pre-check reports nothing. -/
theorem c1_pass_amended :
    (∀ (ev : String → SymResult) (data : Verify.ArgdownDoc),
      (∀ p ∈ data.statements, p.2.relations = [] ∧ p.2.math = none ∧
        p.2.credence = none ∧ p.2.isUsedAsTopLevelStatement = false) →
      (∀ p ∈ data.arguments, p.2.relations = []) →
      (Verify.main_run ev data).errors = [] ∧
        (Verify.main_run ev data).exitCode = 0) ∧
    (∀ (ev : String → SymResult) (probe : String → Except String Nat)
      (verify_urls : Bool) (data : Js.ArgDoc),
      data.claims = [] → data.arguments = [] →
      (Js.main_run [] ev probe verify_urls data).errors = [] ∧
        (Js.main_run [] ev probe verify_urls data).exitCode = 0) := by
  constructor
  · intro ev data hs ha
    have hrel : Verify.extract_relations data = [] :=
      extract_relations_of_no_relations data (fun p hp => (hs p hp).1) ha
    have hm : Verify.check_math ev (Verify.extract_statements data) = [] :=
      check_math_of_no_math ev data (fun p hp => (hs p hp).2.1)
    have hg : Verify.check_graph (Verify.extract_statements data) [] data = [] :=
      check_graph_of_no_relations _ data (fun p hp => (hs p hp).2.2.2)
    have herr : (Verify.main_run ev data).errors = [] := by
      simp [Verify.main_run, hrel, hm, hg, Verify.check_credence_consistency]
    refine ⟨herr, ?_⟩
    simp [Verify.main_run] at herr ⊢
    simp [herr]
  · intro ev probe verify_urls data hc ha
    have herr : (Js.main_run [] ev probe verify_urls data).errors = [] := by
      simp [Js.main_run, Js.check_refs, Js.check_math, Js.check_graph,
        Js.check_sources, Js.buildGraph, Js.orphan_errors, Js.dangling_errors,
        Js.cycle_errors, Js.unsupported_errors, simple_cycles, simpleCyclesGo,
        hc, ha]
    refine ⟨herr, ?_⟩
    simp [Js.main_run] at herr ⊢
    simp [herr]

/-- C1 witness: the amended theorem applied to a concrete document with
one unmarked statement and one relation-free argument entry, and to the
empty jsonschema document. -/
theorem c1_pass_amended_witness :
    (Verify.main_run evTrue Verify.docPlain).errors = [] ∧
      (Js.main_run [] evTrue probeOk false { claims := [], arguments := [] }).errors = [] :=
  ⟨(c1_pass_amended.1 evTrue Verify.docPlain (by decide) (by decide)).1,
   (c1_pass_amended.2 evTrue probeOk false { claims := [], arguments := [] } rfl rfl).1⟩

/-- C2, counterexample: for a contradictory relation, credence sums of
0.94 and 1.06 deviate from 1.0 by 0.06, which exceeds the 0.05
tolerance, so — contrary to the claim — each produces a CONTRADICTION
diagnostic. -/
theorem c2_counterexample :
    Verify.check_credence_consistency
        [("A", Verify.mkStmt "A" (some (47/100)) none),
         ("B", Verify.mkStmt "B" (some (47/100)) none)]
        [⟨"A", "B", "contradictory"⟩] =
      [Diag.contradiction "A" "B" (47/100) (47/100)] ∧
    Verify.check_credence_consistency
        [("A", Verify.mkStmt "A" (some (53/100)) none),
         ("B", Verify.mkStmt "B" (some (53/100)) none)]
        [⟨"A", "B", "contradictory"⟩] =
      [Diag.contradiction "A" "B" (53/100) (53/100)] := by
  refine ⟨?_, ?_⟩ <;>
    (simp [Verify.check_credence_consistency, Verify.relDiag, Verify.credOf,
       Verify.lookupStmt, Verify.mkStmt]
     norm_num [ratAbs, Verify.CONTRADICTION_TOLERANCE])

/-- C2 (amended): for a contradictory relation between two statements
with credences, a diagnostic is produced iff the credence sum deviates
from 1.0 by strictly more than the tolerance constant 0.05; a sum of
exactly 1.0 produces none, while sums of 0.90, 0.94, 1.06 and 1.10 all
deviate by more than 0.05 and each produce one. -/
theorem c2_contradiction_amended (a b : String) (ca cb : ℚ) (hab : a ≠ b) :
    Verify.check_credence_consistency
        [(a, Verify.mkStmt a (some ca) none), (b, Verify.mkStmt b (some cb) none)]
        [⟨a, b, "contradictory"⟩] =
      (if ratAbs (ca + cb - 1) > Verify.CONTRADICTION_TOLERANCE then
        [Diag.contradiction a b ca cb]
      else []) ∧
    Verify.CONTRADICTION_TOLERANCE = 1/20 := by
  refine ⟨?_, rfl⟩
  simp [Verify.check_credence_consistency, Verify.relDiag, Verify.credOf,
    Verify.lookupStmt, Verify.mkStmt, hab, hab.symm]

/-- C2 witness: the amended theorem applied at credences 0.45 and 0.45
(sum 0.90, a case the claim itself lists as triggering), evaluated. -/
theorem c2_contradiction_amended_witness :
    Verify.check_credence_consistency
        [("A", Verify.mkStmt "A" (some (45/100)) none),
         ("B", Verify.mkStmt "B" (some (45/100)) none)]
        [⟨"A", "B", "contradictory"⟩] =
      [Diag.contradiction "A" "B" (45/100) (45/100)] := by
  rw [(c2_contradiction_amended "A" "B" (45/100) (45/100) (by decide)).1]
  norm_num [ratAbs, Verify.CONTRADICTION_TOLERANCE]

/-- C3, counterexample: on a document with both a credence-consistency
violation and a math failure, the aggregated list of `verify_argdown.py`
is not in the claimed order (math and graph diagnostics first,
consistency last): the consistency diagnostic comes first. -/
theorem c3_counterexample :
    (Verify.main_run evFalse Verify.docOrder).errors ≠
      Verify.check_math evFalse (Verify.extract_statements Verify.docOrder) ++
        Verify.check_graph (Verify.extract_statements Verify.docOrder)
          (Verify.extract_relations Verify.docOrder) Verify.docOrder ++
        Verify.check_credence_consistency (Verify.extract_statements Verify.docOrder)
          (Verify.extract_relations Verify.docOrder) := by
  decide

/-- C3 (amended): the aggregated list is the concatenation of the
per-checker outputs in a fixed per-file order — for `verify_argdown.py`
consistency first, then math, then graph; for the jsonschema variant
schema, then referential, then math, then graph, then source checks —
and each of the three argdown checkers only emits diagnostics of its own
category. -/
theorem c3_order_amended :
    (∀ (ev : String → SymResult) (data : Verify.ArgdownDoc),
      (Verify.main_run ev data).errors =
        Verify.check_credence_consistency (Verify.extract_statements data)
            (Verify.extract_relations data) ++
          Verify.check_math ev (Verify.extract_statements data) ++
          Verify.check_graph (Verify.extract_statements data)
            (Verify.extract_relations data) data) ∧
    (∀ (statements : List (String × Verify.Stmt)) (relations : List Verify.Relation)
      (d : Diag), d ∈ Verify.check_credence_consistency statements relations →
      d.isConsistency = true) ∧
    (∀ (ev : String → SymResult) (statements : List (String × Verify.Stmt)) (d : Diag),
      d ∈ Verify.check_math ev statements → d.isMath = true) ∧
    (∀ (statements : List (String × Verify.Stmt)) (relations : List Verify.Relation)
      (data : Verify.ArgdownDoc) (d : Diag),
      d ∈ Verify.check_graph statements relations data → d.isGraphA = true) ∧
    (∀ (schemaErrors : List Diag) (ev : String → SymResult)
      (probe : String → Except String Nat) (verify_urls : Bool) (data : Js.ArgDoc),
      (Js.main_run schemaErrors ev probe verify_urls data).errors =
        schemaErrors ++ Js.check_refs data ++ Js.check_math ev data ++
          Js.check_graph data ++ Js.check_sources probe verify_urls data) :=
  ⟨fun _ _ => rfl, mem_check_credence_isConsistency, mem_check_math_isMath,
   mem_check_graph_isGraphA, fun _ _ _ _ _ => rfl⟩

/-- C3 witness: the amended order equation at a concrete document, and a
category fact discharged at a concrete member. -/
theorem c3_order_amended_witness :
    ((Verify.main_run evFalse Verify.docOrder).errors =
      Verify.check_credence_consistency (Verify.extract_statements Verify.docOrder)
          (Verify.extract_relations Verify.docOrder) ++
        Verify.check_math evFalse (Verify.extract_statements Verify.docOrder) ++
        Verify.check_graph (Verify.extract_statements Verify.docOrder)
          (Verify.extract_relations Verify.docOrder) Verify.docOrder) ∧
    (Diag.entailment "A" "B" 1 0).isConsistency = true :=
  ⟨c3_order_amended.1 evFalse Verify.docOrder,
   c3_order_amended.2.1 (Verify.extract_statements Verify.docOrder)
     (Verify.extract_relations Verify.docOrder) (Diag.entailment "A" "B" 1 0)
     (by decide)⟩

/-- C4: a three-node cycle whose edges are all typed `entails` yields
exactly one ENTAILMENT CYCLE diagnostic naming all three nodes, and the
same cycle with one edge typed `supports` instead yields no diagnostic
at all — in particular no cycle diagnostic of any kind. -/
theorem c4_entailment_cycle (a b c : String) (ev : String → SymResult)
    (hab : a ≠ b) (hac : a ≠ c) (hbc : b ≠ c) :
    (Verify.main_run ev (Verify.docCycleEnt a b c)).errors =
      [Diag.entailmentCycle [a, b, c]] ∧
    (Verify.main_run ev (Verify.docCycleMix a b c)).errors = [] := by
  have hba := hab.symm
  have hca := hac.symm
  have hcb := hbc.symm
  constructor <;>
    simp [Verify.main_run, Verify.docCycleEnt, Verify.docCycleMix,
      Verify.extract_statements, Verify.extract_relations, Verify.dedupRelations,
      Verify.check_credence_consistency, Verify.relDiag, Verify.credOf,
      Verify.lookupStmt, Verify.check_math, Verify.mathDiag, Verify.check_graph,
      Verify.buildGraph, addEdge, addNode, setEdge, Verify.entailmentPairs,
      Verify.pairNodes, simple_cycles, simpleCyclesGo, cycleDfs, succs,
      Verify.degree, hab, hac, hbc, hba, hca, hcb]

/-- C4 witness: the cycle theorem applied to the concrete nodes
`A`, `B`, `C`. -/
theorem c4_entailment_cycle_witness :
    (Verify.main_run evTrue (Verify.docCycleEnt "A" "B" "C")).errors =
      [Diag.entailmentCycle ["A", "B", "C"]] ∧
    (Verify.main_run evTrue (Verify.docCycleMix "A" "B" "C")).errors = [] :=
  c4_entailment_cycle "A" "B" "C" evTrue (by decide) (by decide) (by decide)

/-- C5: the dangling-target check of the jsonschema variant is dead
code.  On the concrete document whose only relation targets the
undeclared identifier `ghost`, `check_graph` emits nothing at all; and
in general `add_edge` inserts every relation target into the node set,
so the dangling pass emits the empty list on every document. -/
theorem c5_dangling_check_dead :
    Js.check_graph Js.docGhost = [] ∧
    ∀ data : Js.ArgDoc, Js.dangling_errors (Js.buildGraph data) = [] :=
  ⟨by decide, fun data => dangling_errors_covered_nil _ (buildGraphJs_covered data)⟩

/-- C6: for a relation typed `entails` whose endpoints both carry
credences `ca` and `cb`, the consistency checker contributes exactly one
ENTAILMENT diagnostic — carrying both identifiers and both credences —
iff `cb < ca`, and contributes nothing when `ca = cb`. -/
theorem c6_entails_diag (statements : List (String × Verify.Stmt))
    (pre post : List Verify.Relation) (rel : Verify.Relation) (ca cb : ℚ)
    (hty : rel.relationType = "entails")
    (hca : Verify.credOf statements rel.fromId = some ca)
    (hcb : Verify.credOf statements rel.toId = some cb) :
    Verify.check_credence_consistency statements (pre ++ rel :: post) =
      Verify.check_credence_consistency statements pre ++
        (if cb < ca then [Diag.entailment rel.fromId rel.toId ca cb] else []) ++
        Verify.check_credence_consistency statements post ∧
    (ca = cb →
      Verify.check_credence_consistency statements (pre ++ rel :: post) =
        Verify.check_credence_consistency statements pre ++
          Verify.check_credence_consistency statements post) := by
  have hmain : Verify.check_credence_consistency statements (pre ++ rel :: post) =
      Verify.check_credence_consistency statements pre ++
        (if cb < ca then [Diag.entailment rel.fromId rel.toId ca cb] else []) ++
        Verify.check_credence_consistency statements post := by
    have hrel : Verify.relDiag statements rel =
        (if cb < ca then [Diag.entailment rel.fromId rel.toId ca cb] else []) := by
      unfold Verify.relDiag
      rw [hca, hcb]
      simp [hty]
    simp only [Verify.check_credence_consistency, List.flatMap_append,
      List.flatMap_cons, List.append_assoc, hrel]
  refine ⟨hmain, fun heq => ?_⟩
  rw [hmain, heq]
  simp

/-- C6 witness: the entailment rule applied to a concrete violating
relation (credence 1 entails credence 0). -/
theorem c6_entails_diag_witness :
    Verify.check_credence_consistency
        [("A", Verify.mkStmt "A" (some 1) none), ("B", Verify.mkStmt "B" (some 0) none)]
        ([] ++ (⟨"A", "B", "entails"⟩ : Verify.Relation) :: []) =
      Verify.check_credence_consistency
          [("A", Verify.mkStmt "A" (some 1) none), ("B", Verify.mkStmt "B" (some 0) none)]
          [] ++
        [Diag.entailment "A" "B" 1 0] ++
        Verify.check_credence_consistency
          [("A", Verify.mkStmt "A" (some 1) none), ("B", Verify.mkStmt "B" (some 0) none)]
          [] := by
  rw [(c6_entails_diag
    [("A", Verify.mkStmt "A" (some 1) none), ("B", Verify.mkStmt "B" (some 0) none)]
    [] [] ⟨"A", "B", "entails"⟩ 1 0 rfl (by decide) (by decide)).1]
  decide

/-- C7: on the entailment chain `a -> b -> c` with every credence set,
crux analysis emits exactly the notes for `a` (downstream count 2) and
`b` (count 1), excluding `c` whose count is 0, each note carrying the
statement's credence and its count; and no crux note ever appears in the
error list that decides pass/fail. -/
theorem c7_crux_chain (a b c : String) (ca cb cc : ℚ) (ev : String → SymResult)
    (hab : a ≠ b) (hac : a ≠ c) (hbc : b ≠ c) :
    (Verify.main_run ev (Verify.docChain a b c ca cb cc)).notes =
      [Diag.crux a ca 2, Diag.crux b cb 1] ∧
    (∀ (ev2 : String → SymResult) (data : Verify.ArgdownDoc) (d : Diag),
      d ∈ (Verify.main_run ev2 data).errors → d.isCrux = false) := by
  refine ⟨?_, mem_main_errors_not_crux⟩
  have hba := hab.symm
  have hca := hac.symm
  have hcb := hbc.symm
  simp [Verify.main_run, Verify.docChain, Verify.extract_statements,
    Verify.extract_relations, Verify.dedupRelations, Verify.crux_analysis,
    Verify.pairNodes, descendants, reachIter, reachStep, appendNew, succs,
    hab, hac, hbc, hba, hca, hcb]

/-- C7 witness: the chain theorem at concrete titles and credences, and
the no-crux-in-errors part discharged at a concrete diagnostic of a
concrete run. -/
theorem c7_crux_chain_witness :
    (Verify.main_run evTrue (Verify.docChain "A" "B" "C" 1 1 1)).notes =
      [Diag.crux "A" 1 2, Diag.crux "B" 1 1] ∧
    (Diag.isolated "A").isCrux = false :=
  ⟨(c7_crux_chain "A" "B" "C" 1 1 1 evTrue (by decide) (by decide) (by decide)).1,
   (c7_crux_chain "A" "B" "C" 1 1 1 evTrue (by decide) (by decide) (by decide)).2
     evTrue Verify.docTopLevelOnly (Diag.isolated "A") (by decide)⟩

/-- C8: when the expression of one math-bearing statement raises, the
math checker emits exactly one MATH ERROR diagnostic carrying the
failure reason for that statement, while every other statement is still
processed — its output is unchanged on both sides — and the graph check
still contributes its diagnostics to the aggregate afterwards. -/
theorem c8_math_error_isolated (ev : String → SymResult)
    (pre post : List (String × Verify.Stmt)) (title : String) (s : Verify.Stmt)
    (e m : String) (hm : s.math = some e) (hne : e ≠ "")
    (herr : ev e = SymResult.error m) :
    Verify.check_math ev (pre ++ (title, s) :: post) =
      Verify.check_math ev pre ++ [Diag.mathError title e m] ++
        Verify.check_math ev post ∧
    (∀ (ev2 : String → SymResult) (data : Verify.ArgdownDoc),
      Verify.check_graph (Verify.extract_statements data)
        (Verify.extract_relations data) data <:+ (Verify.main_run ev2 data).errors) := by
  constructor
  · have hd : Verify.mathDiag ev (title, s) = [Diag.mathError title e m] := by
      unfold Verify.mathDiag
      rw [hm]
      simp [hne, herr]
    simp only [Verify.check_math, List.flatMap_append, List.flatMap_cons, hd,
      List.append_assoc]
  · intro ev2 data
    exact ⟨Verify.check_credence_consistency (Verify.extract_statements data)
        (Verify.extract_relations data) ++
      Verify.check_math ev2 (Verify.extract_statements data), by
        simp [Verify.main_run, List.append_assoc]⟩

/-- C8 witness: the isolation theorem applied to a concrete document
whose single statement carries the malformed expression, under the
all-raising oracle. -/
theorem c8_math_error_isolated_witness :
    Verify.check_math evErr
        ([] ++ ("A", Verify.mkStmt "A" none (some "2 +")) :: []) =
      Verify.check_math evErr [] ++ [Diag.mathError "A" "2 +" "parse error"] ++
        Verify.check_math evErr [] :=
  (c8_math_error_isolated evErr [] [] "A" (Verify.mkStmt "A" none (some "2 +"))
    "2 +" "parse error" rfl (by decide) rfl).1

theorem main_run_exitCode_eq (ev : String → SymResult) (data : Verify.ArgdownDoc) :
    (Verify.main_run ev data).exitCode =
      if (Verify.main_run ev data).errors = [] then 0 else 1 := rfl

theorem js_main_run_exitCode_eq (schemaErrors : List Diag) (ev : String → SymResult)
    (probe : String → Except String Nat) (verify_urls : Bool) (data : Js.ArgDoc) :
    (Js.main_run schemaErrors ev probe verify_urls data).exitCode =
      if (Js.main_run schemaErrors ev probe verify_urls data).errors = [] then 0
      else 1 := rfl

/-- C9: for both verifiers the process exit status is 0 iff the
aggregated diagnostic list is empty and 1 otherwise, and the exit status
is a function of the error list alone — two runs with equal error lists
exit identically, whatever their crux notes are. -/
theorem c9_exit_status (ev : String → SymResult) (data : Verify.ArgdownDoc) :
    ((Verify.main_run ev data).exitCode = 0 ↔ (Verify.main_run ev data).errors = []) ∧
    ((Verify.main_run ev data).exitCode = 1 ↔ (Verify.main_run ev data).errors ≠ []) ∧
    (∀ (ev2 : String → SymResult) (data2 : Verify.ArgdownDoc),
      (Verify.main_run ev data).errors = (Verify.main_run ev2 data2).errors →
      (Verify.main_run ev data).exitCode = (Verify.main_run ev2 data2).exitCode) ∧
    (∀ (schemaErrors : List Diag) (ev2 : String → SymResult)
      (probe : String → Except String Nat) (verify_urls : Bool) (data2 : Js.ArgDoc),
      ((Js.main_run schemaErrors ev2 probe verify_urls data2).exitCode = 0 ↔
        (Js.main_run schemaErrors ev2 probe verify_urls data2).errors = []) ∧
      ((Js.main_run schemaErrors ev2 probe verify_urls data2).exitCode = 1 ↔
        (Js.main_run schemaErrors ev2 probe verify_urls data2).errors ≠ [])) := by
  refine ⟨?_, ?_, ?_, ?_⟩
  · rw [main_run_exitCode_eq]
    by_cases hc : (Verify.main_run ev data).errors = [] <;> simp [hc]
  · rw [main_run_exitCode_eq]
    by_cases hc : (Verify.main_run ev data).errors = [] <;> simp [hc]
  · intro ev2 data2 heq
    rw [main_run_exitCode_eq, main_run_exitCode_eq, heq]
  · intro se ev2 probe vu data2
    constructor <;> rw [js_main_run_exitCode_eq] <;>
      by_cases hc : (Js.main_run se ev2 probe vu data2).errors = [] <;> simp [hc]

/-- C9 witness: exit status 0 on a passing document, 1 on a failing one,
and the error-determines-exit part discharged at a concrete pair of
identical runs. -/
theorem c9_exit_status_witness :
    (Verify.main_run evTrue Verify.docPlain).exitCode = 0 ∧
    (Verify.main_run evTrue Verify.docTopLevelOnly).exitCode = 1 ∧
    (Verify.main_run evTrue Verify.docPlain).exitCode =
      (Verify.main_run evTrue Verify.docPlain).exitCode :=
  ⟨(c9_exit_status evTrue Verify.docPlain).1.mpr (by decide),
   (c9_exit_status evTrue Verify.docTopLevelOnly).2.1.mpr (by decide),
   (c9_exit_status evTrue Verify.docPlain).2.2.1 evTrue Verify.docPlain rfl⟩

/-- C10: a relation whose `from` or `to` title is absent from the
statements mapping is skipped by the consistency checker exactly like a
relation whose endpoint lacks a credence: it contributes no diagnostic
(and the checker, a total function, raises nothing). -/
theorem c10_missing_endpoint_skipped (statements : List (String × Verify.Stmt))
    (rel : Verify.Relation) (rest : List Verify.Relation)
    (h : Verify.lookupStmt statements rel.fromId = none ∨
      Verify.lookupStmt statements rel.toId = none) :
    Verify.check_credence_consistency statements (rel :: rest) =
      Verify.check_credence_consistency statements rest ∧
    (∀ (statements2 : List (String × Verify.Stmt)) (rel2 : Verify.Relation)
      (rest2 : List Verify.Relation),
      Verify.credOf statements2 rel2.fromId = none ∨
        Verify.credOf statements2 rel2.toId = none →
      Verify.check_credence_consistency statements2 (rel2 :: rest2) =
        Verify.check_credence_consistency statements2 rest2) := by
  have haux : ∀ (st : List (String × Verify.Stmt)) (r : Verify.Relation)
      (rs : List Verify.Relation),
      Verify.credOf st r.fromId = none ∨ Verify.credOf st r.toId = none →
      Verify.check_credence_consistency st (r :: rs) =
        Verify.check_credence_consistency st rs := by
    intro st r rs hcr
    have hnil : Verify.relDiag st r = [] := by
      unfold Verify.relDiag
      rcases hcr with hc | hc
      · rw [hc]
      · cases hf : Verify.credOf st r.fromId <;> simp [hc]
    unfold Verify.check_credence_consistency
    rw [List.flatMap_cons, hnil, List.nil_append]
  refine ⟨haux statements rel rest ?_, haux⟩
  unfold Verify.credOf
  rcases h with hl | hl <;> [exact Or.inl (by rw [hl]; rfl);
    exact Or.inr (by rw [hl]; rfl)]

/-- C10 witness: a relation whose source title `A` is not in the
statements mapping contributes nothing. -/
theorem c10_missing_endpoint_skipped_witness :
    Verify.check_credence_consistency [("B", Verify.mkStmt "B" (some 1) none)]
        ((⟨"A", "B", "entails"⟩ : Verify.Relation) :: []) =
      Verify.check_credence_consistency [("B", Verify.mkStmt "B" (some 1) none)] [] :=
  (c10_missing_endpoint_skipped [("B", Verify.mkStmt "B" (some 1) none)]
    ⟨"A", "B", "entails"⟩ [] (Or.inl (by decide))).1
